import Mathlib

/-!
Shallow embedding of the Trails API server (src/server.js): the
datastore model, the resource descriptors, the helper functions, and the
route-handler functions, together with theorems about their behaviour.

Conventions of the embedding:
* The Google Cloud Datastore is modelled as a `List Entity`; an entity is
  identified in the store by its kind plus its numeric key id, exactly the
  pair that `datastore.key([type.name, parseInt(id)])` denotes in the
  source.  `datastore.update` replaces the stored entity with that key,
  `datastore.delete` removes it, `datastore.save` appends a new entity
  under a store-assigned key id (passed in as an explicit argument here).
* Entity ids are `Nat`; the source treats them as opaque
  equality-comparable tokens (URL parameter, `parseInt`, key id).
* JSON objects (request bodies, attribute maps, response payloads) are
  association lists `List (String × Value)` looked up by first match,
  matching JavaScript object key access.
* The external Google identity verifier behind `oauth2Client.verifyIdToken`
  is an oracle argument `authOracle : String → Option UserData`;
  `verifyUser` wraps it with the empty-token check and the `Bearer `
  prefix strip performed in the source.
* The pagination cursor issued by the datastore is modelled as the number
  of matching results already consumed; `moreResults ≠ NO_MORE_RESULTS`
  is modelled as the store truthfully reporting that results remain
  beyond the returned page, the reading the spec gives that flag.
-/

/-- Attribute values carried in request bodies and stored entities. -/
inductive Value where
  | vstr (s : String)
  | vnum (n : Int)
  | vid (n : Nat)
  | vids (l : List Nat)
  | vnull
  deriving DecidableEq, Repr

/-- Static per-resource metadata, mirroring the `USER` / `TRAIL` /
`TRAILHEAD` constants of server.js.  The source field name `protected`
is a Lean keyword, hence `isProtected`. -/
structure EntityType where
  name : String
  URL : String
  requiredAttributes : List String
  otherAttributes : List String
  isProtected : Bool
  deriving DecidableEq, Repr

/-- Base URL that all routes are added to (server.js line 29). -/
def URL : String := "https://trails-api.wl.r.appspot.com/"

/-- Number of entities displayed per page in pagination (server.js line 32). -/
def RESULTS_PER_PAGE : Nat := 5

/-- The `User` descriptor of server.js. -/
def USER : EntityType :=
  { name := "User"
    URL := "users/"
    requiredAttributes := ["firstName", "lastName", "userId"]
    otherAttributes := []
    isProtected := false }

/-- The `Trail` descriptor of server.js. -/
def TRAIL : EntityType :=
  { name := "Trail"
    URL := "trails/"
    requiredAttributes := ["name", "length", "difficulty"]
    otherAttributes := ["trailheads"]
    isProtected := true }

/-- The `Trailhead` descriptor of server.js. -/
def TRAILHEAD : EntityType :=
  { name := "Trailhead"
    URL := "trailheads/"
    requiredAttributes := ["name", "location", "fee"]
    otherAttributes := ["trails"]
    isProtected := false }

/-- Result object returned by every route function: an HTTP status code
plus a JSON payload, as in the `{code, data}` objects of server.js. -/
structure ApiResult where
  code : Nat
  data : List (String × Value)
  deriving DecidableEq, Repr

/-- 400 error when the request body is missing a required attribute. -/
def attributeMissingError : ApiResult :=
  { code := 400
    data := [("error", .vstr "The requested object is missing at least one of the required attributes")] }

/-- 401 error when the ID token is not valid. -/
def userNotAuthenticatedError : ApiResult :=
  { code := 401
    data := [("error", .vstr "The user cannot be authenticated.")] }

/-- 403 error when an authenticated user acts on an item they do not own. -/
def forbiddenError : ApiResult :=
  { code := 403
    data := [("error", .vstr "That action is forbidden for the authenticated user.")] }

/-- 403 error when adding a trailhead to a trail that already has it. -/
def alreadyExistsError : ApiResult :=
  { code := 403
    data := [("error", .vstr "That content already exists and cannot be added again.")] }

/-- 403 error when removing a relationship that does not exist. -/
def relationshipDoesNotExistError : ApiResult :=
  { code := 403
    data := [("error", .vstr "That relationship does not exist.")] }

/-- 404 error when a non-protected resource is not found. -/
def doesNotExistError : ApiResult :=
  { code := 404
    data := [("error", .vstr "The requested item does not exist.")] }

/-- 405 error for unsupported methods on a route. -/
def methodNotAllowedError : ApiResult :=
  { code := 405
    data := [("error", .vstr "That method is not allowed.")] }

/-- 406 error when the Accept header is not `*/*` or `application/json`. -/
def acceptTypeError : ApiResult :=
  { code := 406
    data := [("error", .vstr "The request's accept type is not valid.")] }

/-- The request headers the handlers consult: `accept` and
`authorization` (absent authorization is `none`). -/
structure Headers where
  accept : String
  authorization : Option String
  deriving DecidableEq, Repr

/-- The payload of a verified Google ticket; the handlers only use the
stable subject identifier `sub`. -/
structure TicketPayload where
  sub : String
  deriving DecidableEq, Repr

/-- The object returned by a successful `verifyUser`, holding the ticket
payload, accessed as `userData.payload.sub` in the source. -/
structure UserData where
  payload : TicketPayload
  deriving DecidableEq, Repr

/-- `verifyUser` of server.js: rejects an absent or empty token, strips
an optional `Bearer ` prefix, then defers to the external verifier
(the oracle). -/
def verifyUser (authOracle : String → Option UserData) (idToken : Option String) :
    Option UserData :=
  match idToken with
  | none => none
  | some tok =>
    if tok = "" then none
    else if tok.take 7 = "Bearer " then authOracle (tok.drop 7)
    else authOracle tok

/-- `acceptTypeIsNotJSON` of server.js: true when the Accept header
allows neither `*/*` nor `application/json`. -/
def acceptTypeIsNotJSON (headers : Headers) : Bool :=
  headers.accept != "*/*" && headers.accept != "application/json"

/-- `makeSelfURL` of server.js: base URL, then the type's URL segment,
then the id (the id is concatenated as a string in the source). -/
def makeSelfURL (id : String) (type : EntityType) : String :=
  URL ++ type.URL ++ id

/-- A persisted datastore document: its kind and store key id, its
required-attribute values, its optional `userId` owner stamp, and its
relation arrays of foreign ids (`trailheads` on trails, `trails` on
trailheads). -/
structure Entity where
  kind : String
  keyId : Nat
  attrs : List (String × Value)
  userId : Option String
  relations : List (String × List Nat)
  deriving DecidableEq, Repr

/-- Read a relation array of an entity (JavaScript property access such
as `trailEntity.trailheads`). -/
def getRel (e : Entity) (name : String) : List Nat :=
  (List.lookup name e.relations).getD []

/-- Overwrite a relation array of an entity (JavaScript property
assignment such as `trailEntity.trailheads = ...`). -/
def setRel (e : Entity) (name : String) (v : List Nat) : Entity :=
  { e with relations := (name, v) :: e.relations.filter (fun p => p.1 != name) }

/-- The identity of an entity in the store: its kind together with its
key id, the pair a datastore key denotes. -/
def entKey (e : Entity) : String × Nat := (e.kind, e.keyId)

/-- `datastore.update`: replace the stored entity carrying the same key. -/
def dsUpdate (ds : List Entity) (e : Entity) : List Entity :=
  ds.map fun x => if entKey x = entKey e then e else x

/-- `datastore.delete`: remove the entity carrying the given key. -/
def dsDelete (ds : List Entity) (k : String × Nat) : List Entity :=
  ds.filter fun x => decide (entKey x ≠ k)

/-- Owner filter of the protected datastore query: with a subject the
entity's `userId` must equal it; without one every entity passes. -/
def uidOk (userId : Option String) (e : Entity) : Bool :=
  match userId with
  | some uid => e.userId == some uid
  | none => true

/-- The predicate the datastore lookup of server.js applies: same kind,
same key id, and the optional owner filter. -/
def entMatch (type : EntityType) (id : Nat) (userId : Option String) (e : Entity) : Bool :=
  e.kind == type.name && (e.keyId == id && uidOk userId e)

/-- `getEntityFromDatastore` of server.js: with a `userId` it runs a
query filtered on `userId` and on the key; without one it gets the
entity by key alone.  Both source branches look up the first stored
entity of the given kind and key id passing the owner filter. -/
def getEntityFromDatastore (ds : List Entity) (id : Nat) (type : EntityType)
    (userId : Option String) : Option Entity :=
  ds.find? (entMatch type id userId)

/-- `makeTrailFormatJSON` of server.js. -/
def makeTrailFormatJSON (trailEntity : Entity) : List (String × Value) :=
  [("name", (List.lookup "name" trailEntity.attrs).getD .vnull),
   ("length", (List.lookup "length" trailEntity.attrs).getD .vnull),
   ("difficulty", (List.lookup "difficulty" trailEntity.attrs).getD .vnull),
   ("trailheads", .vids (getRel trailEntity "trailheads")),
   ("id", .vid trailEntity.keyId),
   ("userId", match trailEntity.userId with | some s => .vstr s | none => .vnull),
   ("self", .vstr (makeSelfURL (toString trailEntity.keyId) TRAIL))]

/-- `makeTrailheadFormatJSON` of server.js. -/
def makeTrailheadFormatJSON (trailheadEntity : Entity) : List (String × Value) :=
  [("name", (List.lookup "name" trailheadEntity.attrs).getD .vnull),
   ("location", (List.lookup "location" trailheadEntity.attrs).getD .vnull),
   ("fee", (List.lookup "fee" trailheadEntity.attrs).getD .vnull),
   ("trails", .vids (getRel trailheadEntity "trails")),
   ("id", .vid trailheadEntity.keyId),
   ("self", .vstr (makeSelfURL (toString trailheadEntity.keyId) TRAILHEAD))]

/-- `makeUserFormatJSON` of server.js.  Note that the source builds the
self URL with the `TRAILHEAD` descriptor, not `USER`. -/
def makeUserFormatJSON (userEntity : Entity) : List (String × Value) :=
  [("firstName", (List.lookup "firstName" userEntity.attrs).getD .vnull),
   ("lastName", (List.lookup "lastName" userEntity.attrs).getD .vnull),
   ("userId", (List.lookup "userId" userEntity.attrs).getD .vnull),
   ("id", .vid userEntity.keyId),
   ("self", .vstr (makeSelfURL (toString userEntity.keyId) TRAILHEAD))]

/-- `makeResponseByType` of server.js: dispatch on the descriptor's name
to pick the formatting function; an unknown name yields the initial
empty response. -/
def makeResponseByType (type : EntityType) (entities : List Entity) :
    List (List (String × Value)) :=
  if type.name = "Trail" then entities.map makeTrailFormatJSON
  else if type.name = "Trailhead" then entities.map makeTrailheadFormatJSON
  else if type.name = "User" then entities.map makeUserFormatJSON
  else []

/-- `makeNextPageURL` of server.js.  `encodeURIComponent` is the
identity on the decimal representation of the modelled cursor. -/
def makeNextPageURL (type : EntityType) (cursor : Nat) : String :=
  URL ++ type.URL ++ "?nextPage=" ++ toString cursor

/-- The required-attribute presence check run by `postEntity` and
`putEntity` (`attr in body` for every required attribute). -/
def allAttrsPresent (type : EntityType) (body : List (String × Value)) : Bool :=
  type.requiredAttributes.all fun a => (List.lookup a body).isSome

/-- JavaScript property assignment on an attribute map: overwrite the
key when present, append it otherwise. -/
def setAttrVal (l : List (String × Value)) (a : String) (v : Value) :
    List (String × Value) :=
  if (List.lookup a l).isSome then l.map (fun p => if p.1 = a then (a, v) else p)
  else l ++ [(a, v)]

/-- The `for (const attr in updatedEntity.data) entity[attr] = ...` loop
of `putEntity`: write every updated attribute into the stored map. -/
def overwriteAttrs (attrs : List (String × Value)) (upd : List (String × Value)) :
    List (String × Value) :=
  upd.foldl (fun acc p => setAttrVal acc p.1 p.2) attrs

/-- Outcome of the authentication gate shared by the handlers: `none`
when a protected resource rejects the token, otherwise the optional
subject used to filter datastore queries (`none` for unprotected
resources, where the source leaves `userData` null). -/
def authGate (authOracle : String → Option UserData) (type : EntityType)
    (headers : Headers) : Option (Option String) :=
  if type.isProtected then
    match verifyUser authOracle headers.authorization with
    | none => none
    | some userData => some (some userData.payload.sub)
  else some none

/-- `getEntity` of server.js: Accept gate; for a protected type
authenticate and look the entity up under the owner filter (absence is
403); for an unprotected type look it up by key (absence is 404); on
success return 200 with the entity formatted by its type. -/
def getEntity (authOracle : String → Option UserData) (ds : List Entity) (id : Nat)
    (type : EntityType) (headers : Headers) : ApiResult :=
  if acceptTypeIsNotJSON headers then acceptTypeError
  else if type.isProtected then
    match verifyUser authOracle headers.authorization with
    | none => userNotAuthenticatedError
    | some userData =>
      match getEntityFromDatastore ds id type (some userData.payload.sub) with
      | none => forbiddenError
      | some entity =>
        { code := 200, data := (makeResponseByType type [entity]).headD [] }
  else
    match getEntityFromDatastore ds id type none with
    | none => doesNotExistError
    | some entity =>
      { code := 200, data := (makeResponseByType type [entity]).headD [] }

/-- A page response: either one of the error results, or the 200 payload
holding the count, the self URL, the formatted items, and the next-page
URL when the store reports more results. -/
inductive PageResponse where
  | err (r : ApiResult)
  | ok (count : Nat) (self : String) (items : List (List (String × Value)))
      (next : Option String)
  deriving DecidableEq, Repr

/-- The entities a list query matches: same kind, and owned by the
subject when the query is owner-filtered. -/
def matchingEntities (ds : List Entity) (type : EntityType) (uid : Option String) :
    List Entity :=
  ds.filter fun e => e.kind == type.name && uidOk uid e

/-- `getEntitiesPagination` of server.js: Accept gate; authenticate when
the type is protected; run the count query and the page query (filtered
by owner for a protected type), starting at the cursor when one is
given; format the items; and attach a next URL exactly when the store
reports more results beyond the returned page. -/
def getEntitiesPagination (authOracle : String → Option UserData) (ds : List Entity)
    (type : EntityType) (headers : Headers) (nextPageCursor : Option Nat) :
    PageResponse :=
  if acceptTypeIsNotJSON headers then .err acceptTypeError
  else
    match authGate authOracle type headers with
    | none => .err userNotAuthenticatedError
    | some uid =>
      let matching := matchingEntities ds type uid
      let count := matching.length
      let self :=
        match nextPageCursor with
        | some cursor => makeNextPageURL type cursor
        | none => makeSelfURL "" type
      let start := nextPageCursor.getD 0
      let items := (matching.drop start).take RESULTS_PER_PAGE
      let endCursor := start + items.length
      let next :=
        if endCursor < matching.length then some (makeNextPageURL type endCursor)
        else none
      .ok count self (makeResponseByType type items) next

/-- `postEntity` of server.js: Accept gate; 400 when a required
attribute is missing from the body; authenticate when the type is
protected (stamping `userId`); build the new entity with the required
attributes from the body and empty relation arrays; save it under the
store-assigned key id; return 201 with the new entity, its id, and its
self URL. -/
def postEntity (authOracle : String → Option UserData) (ds : List Entity)
    (newKeyId : Nat) (type : EntityType) (headers : Headers)
    (body : List (String × Value)) : ApiResult × List Entity :=
  if acceptTypeIsNotJSON headers then (acceptTypeError, ds)
  else if !allAttrsPresent type body then (attributeMissingError, ds)
  else
    match authGate authOracle type headers with
    | none => (userNotAuthenticatedError, ds)
    | some uid =>
      let newEntity : Entity :=
        { kind := type.name
          keyId := newKeyId
          attrs := type.requiredAttributes.map fun a =>
            (a, (List.lookup a body).getD .vnull)
          userId := uid
          relations := type.otherAttributes.map fun a => (a, []) }
      let respData :=
        (match uid with
         | some sub => [("userId", Value.vstr sub)]
         | none => []) ++
        newEntity.attrs ++
        newEntity.relations.map (fun p => (p.1, Value.vids p.2)) ++
        [("id", Value.vid newKeyId),
         ("self", Value.vstr (makeSelfURL (toString newKeyId) type))]
      ({ code := 201, data := respData }, ds ++ [newEntity])

/-- `putEntity` of server.js: Accept gate; 400 when a required attribute
is missing (full-replace semantics); authenticate and look the entity up
under the owner filter when protected (absence is 403), by key alone
otherwise (absence is 404); write every updated attribute (and the
owner stamp when protected) into the stored entity and update the
datastore; return 200 with the updated data, the id, the self URL, and
the entity's relation arrays. -/
def putEntity (authOracle : String → Option UserData) (ds : List Entity) (id : Nat)
    (type : EntityType) (headers : Headers) (body : List (String × Value)) :
    ApiResult × List Entity :=
  if acceptTypeIsNotJSON headers then (acceptTypeError, ds)
  else if !allAttrsPresent type body then (attributeMissingError, ds)
  else
    let newAttrs := type.requiredAttributes.map fun a =>
      (a, (List.lookup a body).getD .vnull)
    match authGate authOracle type headers with
    | none => (userNotAuthenticatedError, ds)
    | some uid =>
      match getEntityFromDatastore ds id type uid with
      | none => (if uid.isSome then forbiddenError else doesNotExistError, ds)
      | some entity =>
        let entity' :=
          { entity with
            attrs := overwriteAttrs entity.attrs newAttrs
            userId := match uid with | some sub => some sub | none => entity.userId }
        let respData :=
          newAttrs ++
          (match uid with
           | some sub => [("userId", Value.vstr sub)]
           | none => []) ++
          [("id", Value.vid id),
           ("self", Value.vstr (makeSelfURL (toString id) type))] ++
          type.otherAttributes.map (fun a => (a, Value.vids (getRel entity' a)))
        ({ code := 200, data := respData }, dsUpdate ds entity')

/-- `patchEntity` of server.js: Accept gate; authenticate and look the
entity up under the owner filter when protected (absence is 403), by key
alone otherwise (absence is 404).  The response data merges the body's
attributes over the stored ones, but the source then calls
`datastore.update(entity)` on the fetched entity object, which the merge
loop never modified: the store keeps the old attribute values. -/
def patchEntity (authOracle : String → Option UserData) (ds : List Entity) (id : Nat)
    (type : EntityType) (headers : Headers) (body : List (String × Value)) :
    ApiResult × List Entity :=
  if acceptTypeIsNotJSON headers then (acceptTypeError, ds)
  else
    match authGate authOracle type headers with
    | none => (userNotAuthenticatedError, ds)
    | some uid =>
      match getEntityFromDatastore ds id type uid with
      | none => (if uid.isSome then forbiddenError else doesNotExistError, ds)
      | some entity =>
        let dataAttrs := type.requiredAttributes.map fun a =>
          (a, match List.lookup a body with
              | some v => v
              | none => (List.lookup a entity.attrs).getD .vnull)
        let respData :=
          (match uid with
           | some sub => [("userId", Value.vstr sub)]
           | none => []) ++
          dataAttrs ++
          [("id", Value.vid id),
           ("self", Value.vstr (makeSelfURL (toString id) type))] ++
          type.otherAttributes.map (fun a => (a, Value.vids (getRel entity a)))
        ({ code := 200, data := respData }, dsUpdate ds entity)

/-- One step of the `removeRelationships` loop: load each counterpart of
the listed foreign ids in turn, filter the deleted entity's id out of
its back-reference array, and update it.  A failed load aborts the
remaining iterations, as the thrown property access does in the source. -/
def cascadeList (counterType : EntityType) (relName : String) (selfId : Nat) :
    List Entity → List Nat → List Entity
  | ds, [] => ds
  | ds, fid :: rest =>
    match getEntityFromDatastore ds fid counterType none with
    | none => ds
    | some counter =>
      cascadeList counterType relName selfId
        (dsUpdate ds
          (setRel counter relName ((getRel counter relName).filter fun v => v != selfId)))
        rest

/-- `removeRelationships` of server.js: for a trail, remove its id from
the `trails` array of every listed trailhead; for a trailhead, remove
its id from the `trailheads` array of every listed trail. -/
def removeRelationships (ds : List Entity) (entity : Entity) (type : EntityType) :
    List Entity :=
  if type = TRAIL then
    cascadeList TRAILHEAD "trails" entity.keyId ds (getRel entity "trailheads")
  else if type = TRAILHEAD then
    cascadeList TRAIL "trailheads" entity.keyId ds (getRel entity "trails")
  else ds

/-- `deleteEntity` of server.js: Accept gate; authenticate and look the
entity up under the owner filter when protected (absence is 403), by key
alone otherwise (absence is 404); cascade-remove its relationships, then
delete it; return 204. -/
def deleteEntity (authOracle : String → Option UserData) (ds : List Entity) (id : Nat)
    (type : EntityType) (headers : Headers) : ApiResult × List Entity :=
  if acceptTypeIsNotJSON headers then (acceptTypeError, ds)
  else
    match authGate authOracle type headers with
    | none => (userNotAuthenticatedError, ds)
    | some uid =>
      match getEntityFromDatastore ds id type uid with
      | none => (if uid.isSome then forbiddenError else doesNotExistError, ds)
      | some entity =>
        let ds' := removeRelationships ds entity type
        ({ code := 204, data := [] }, dsDelete ds' (entKey entity))

/-- `assignTrailheadToTrail` of server.js: Accept gate; authenticate;
load the trail under the owner filter (absence is 403) and the trailhead
by key (absence is 404); 403 AlreadyExists when the edge is present in
both relation arrays; otherwise push each key id onto the other's array,
update both, and return 204. -/
def assignTrailheadToTrail (authOracle : String → Option UserData) (ds : List Entity)
    (trailId : Nat) (trailheadId : Nat) (headers : Headers) :
    ApiResult × List Entity :=
  if acceptTypeIsNotJSON headers then (acceptTypeError, ds)
  else
    match verifyUser authOracle headers.authorization with
    | none => (userNotAuthenticatedError, ds)
    | some userData =>
      match getEntityFromDatastore ds trailId TRAIL (some userData.payload.sub),
            getEntityFromDatastore ds trailheadId TRAILHEAD none with
      | none, _ => (forbiddenError, ds)
      | some _, none => (doesNotExistError, ds)
      | some trailEntity, some trailheadEntity =>
        if (getRel trailEntity "trailheads").contains trailheadEntity.keyId &&
           (getRel trailheadEntity "trails").contains trailEntity.keyId then
          (alreadyExistsError, ds)
        else
          let trailEntity' := setRel trailEntity "trailheads"
            (getRel trailEntity "trailheads" ++ [trailheadEntity.keyId])
          let trailheadEntity' := setRel trailheadEntity "trails"
            (getRel trailheadEntity "trails" ++ [trailEntity.keyId])
          ({ code := 204, data := [] },
           dsUpdate (dsUpdate ds trailEntity') trailheadEntity')

/-- `removeTrailheadFromTrail` of server.js: Accept gate; authenticate;
load the trail under the owner filter (absence is 403) and the trailhead
by key (absence is 404); 403 RelationshipNotFound when the edge is
present in neither relation array; otherwise filter the route's ids out
of both arrays, update both, and return 204. -/
def removeTrailheadFromTrail (authOracle : String → Option UserData) (ds : List Entity)
    (trailId : Nat) (trailheadId : Nat) (headers : Headers) :
    ApiResult × List Entity :=
  if acceptTypeIsNotJSON headers then (acceptTypeError, ds)
  else
    match verifyUser authOracle headers.authorization with
    | none => (userNotAuthenticatedError, ds)
    | some userData =>
      match getEntityFromDatastore ds trailId TRAIL (some userData.payload.sub),
            getEntityFromDatastore ds trailheadId TRAILHEAD none with
      | none, _ => (forbiddenError, ds)
      | some _, none => (doesNotExistError, ds)
      | some trailEntity, some trailheadEntity =>
        if !(getRel trailEntity "trailheads").contains trailheadEntity.keyId &&
           !(getRel trailheadEntity "trails").contains trailEntity.keyId then
          (relationshipDoesNotExistError, ds)
        else
          let trailEntity' := setRel trailEntity "trailheads"
            ((getRel trailEntity "trailheads").filter fun v => v != trailheadId)
          let trailheadEntity' := setRel trailheadEntity "trails"
            ((getRel trailheadEntity "trails").filter fun v => v != trailId)
          ({ code := 204, data := [] },
           dsUpdate (dsUpdate ds trailEntity') trailheadEntity')

/-! Lemmas about the datastore model. -/

theorem entMatch_iff {type : EntityType} {id : Nat} {uid : Option String} {e : Entity} :
    entMatch type id uid e = true ↔
      e.kind = type.name ∧ e.keyId = id ∧ uidOk uid e = true := by
  simp [entMatch, Bool.and_eq_true, and_assoc]

theorem entMatch_entKey {type : EntityType} {id : Nat} {uid : Option String} {e : Entity}
    (h : entMatch type id uid e = true) : entKey e = (type.name, id) := by
  obtain ⟨h1, h2, _⟩ := entMatch_iff.mp h
  simp [entKey, h1, h2]

theorem getFromDs_some {ds : List Entity} {id : Nat} {type : EntityType}
    {uid : Option String} {e : Entity}
    (h : getEntityFromDatastore ds id type uid = some e) :
    e ∈ ds ∧ e.kind = type.name ∧ e.keyId = id ∧ uidOk uid e = true := by
  refine ⟨List.mem_of_find?_eq_some h, entMatch_iff.mp (List.find?_some h)⟩

theorem getFromDs_none_of {ds : List Entity} {id : Nat} {type : EntityType}
    {uid : Option String}
    (h : ∀ e ∈ ds, ¬(e.kind = type.name ∧ e.keyId = id ∧ uidOk uid e = true)) :
    getEntityFromDatastore ds id type uid = none := by
  rw [getEntityFromDatastore, List.find?_eq_none]
  intro x hx hpx
  exact h x hx (entMatch_iff.mp hpx)

theorem getFromDs_dsUpdate_hit {ds : List Entity} {a : Entity} {id : Nat}
    {type : EntityType} {uid : Option String}
    (hmatch : entMatch type id uid a = true)
    (hex : ∃ x ∈ ds, entKey x = entKey a) :
    getEntityFromDatastore (dsUpdate ds a) id type uid = some a := by
  induction ds with
  | nil => simp at hex
  | cons x rest ih =>
    obtain ⟨y, hy, hky⟩ := hex
    by_cases hk : entKey x = entKey a
    · simp only [dsUpdate, List.map_cons, if_pos hk, getEntityFromDatastore]
      exact List.find?_cons_of_pos _ hmatch
    · have hpx : ¬(entMatch type id uid x = true) := by
        intro hpx
        exact hk ((entMatch_entKey hpx).trans (entMatch_entKey hmatch).symm)
      simp only [dsUpdate, List.map_cons, if_neg hk, getEntityFromDatastore] at *
      rw [List.find?_cons_of_neg _ hpx]
      have hyrest : y ∈ rest := by
        rcases List.mem_cons.mp hy with rfl | hyr
        · exact absurd hky hk
        · exact hyr
      exact ih ⟨y, hyrest, hky⟩

theorem getFromDs_dsUpdate_miss {ds : List Entity} {a : Entity} {id : Nat}
    {type : EntityType} {uid : Option String}
    (hne : entKey a ≠ (type.name, id)) :
    getEntityFromDatastore (dsUpdate ds a) id type uid =
      getEntityFromDatastore ds id type uid := by
  induction ds with
  | nil => rfl
  | cons x rest ih =>
    by_cases hk : entKey x = entKey a
    · have hpa : ¬(entMatch type id uid a = true) := fun h => hne (entMatch_entKey h)
      have hpx : ¬(entMatch type id uid x = true) := fun h =>
        hne (hk ▸ entMatch_entKey h)
      simp only [dsUpdate, List.map_cons, if_pos hk, getEntityFromDatastore] at *
      rw [List.find?_cons_of_neg _ hpa, List.find?_cons_of_neg _ hpx]
      exact ih
    · simp only [dsUpdate, List.map_cons, if_neg hk, getEntityFromDatastore] at *
      by_cases hpx : entMatch type id uid x = true
      · rw [List.find?_cons_of_pos _ hpx, List.find?_cons_of_pos _ hpx]
      · rw [List.find?_cons_of_neg _ hpx, List.find?_cons_of_neg _ hpx]
        exact ih

theorem mem_dsUpdate_of_ne {ds : List Entity} {a x : Entity}
    (hx : x ∈ ds) (hne : entKey x ≠ entKey a) : x ∈ dsUpdate ds a := by
  rw [dsUpdate, List.mem_map]
  exact ⟨x, hx, if_neg hne⟩

theorem getFromDs_dsDelete_same {ds : List Entity} {id : Nat} {type : EntityType}
    {uid : Option String} :
    getEntityFromDatastore (dsDelete ds (type.name, id)) id type uid = none := by
  rw [getEntityFromDatastore, List.find?_eq_none]
  intro x hx hpx
  have hmem := List.mem_filter.mp hx
  exact of_decide_eq_true hmem.2 (entMatch_entKey hpx)

theorem getFromDs_dsDelete_other {ds : List Entity} {k : String × Nat} {id : Nat}
    {type : EntityType} {uid : Option String}
    (hne : k ≠ (type.name, id)) :
    getEntityFromDatastore (dsDelete ds k) id type uid =
      getEntityFromDatastore ds id type uid := by
  induction ds with
  | nil => rfl
  | cons x rest ih =>
    by_cases hk : entKey x = k
    · have hpx : ¬(entMatch type id uid x = true) := fun h =>
        hne (hk ▸ entMatch_entKey h)
      simp only [dsDelete, List.filter_cons] at ih ⊢
      rw [if_neg (by simp [hk])]
      simp only [getEntityFromDatastore] at ih ⊢
      rw [List.find?_cons_of_neg _ hpx]
      exact ih
    · simp only [dsDelete, List.filter_cons] at ih ⊢
      rw [if_pos (by simp [hk])]
      simp only [getEntityFromDatastore] at ih ⊢
      by_cases hpx : entMatch type id uid x = true
      · rw [List.find?_cons_of_pos _ hpx, List.find?_cons_of_pos _ hpx]
      · rw [List.find?_cons_of_neg _ hpx, List.find?_cons_of_neg _ hpx]
        exact ih

theorem getRel_setRel_same (e : Entity) (n : String) (v : List Nat) :
    getRel (setRel e n v) n = v := by
  simp [getRel, setRel, List.lookup]

theorem setRel_kind (e : Entity) (n : String) (v : List Nat) :
    (setRel e n v).kind = e.kind := rfl

theorem setRel_keyId (e : Entity) (n : String) (v : List Nat) :
    (setRel e n v).keyId = e.keyId := rfl

theorem setRel_userId (e : Entity) (n : String) (v : List Nat) :
    (setRel e n v).userId = e.userId := rfl

theorem setRel_entKey (e : Entity) (n : String) (v : List Nat) :
    entKey (setRel e n v) = entKey e := rfl

theorem makeResponseByType_length {type : EntityType} (l : List Entity)
    (h : type = USER ∨ type = TRAIL ∨ type = TRAILHEAD) :
    (makeResponseByType type l).length = l.length := by
  rcases h with rfl | rfl | rfl <;> simp [makeResponseByType, USER, TRAIL, TRAILHEAD]

theorem TRAIL_isProtected : TRAIL.isProtected = true := rfl

theorem TRAIL_name : TRAIL.name = "Trail" := rfl

theorem TRAILHEAD_isProtected : TRAILHEAD.isProtected = false := rfl

theorem TRAILHEAD_name : TRAILHEAD.name = "Trailhead" := rfl

/-! Concrete fixtures used to witness the theorems below: an identity
oracle accepting two tokens, headers, and a handful of entities. -/

/-- Identity oracle accepting the tokens of two distinct subjects. -/
def authA : String → Option UserData := fun t =>
  if t = "tokenA" then some { payload := { sub := "subjectA" } }
  else if t = "tokenB" then some { payload := { sub := "subjectB" } }
  else none

/-- JSON-accepting headers carrying subject A's token. -/
def hdrA : Headers := { accept := "application/json", authorization := some "tokenA" }

/-- JSON-accepting headers carrying subject B's token. -/
def hdrB : Headers := { accept := "application/json", authorization := some "tokenB" }

/-- Headers with a non-JSON Accept value. -/
def hdrPlain : Headers := { accept := "text/plain", authorization := some "tokenA" }

/-- A trail stored under key id 1, owned by subject A, with no
trailheads assigned. -/
def trailRidge : Entity :=
  { kind := "Trail"
    keyId := 1
    attrs := [("name", .vstr "Ridge"), ("length", .vnum 7), ("difficulty", .vstr "hard")]
    userId := some "subjectA"
    relations := [("trailheads", [])] }

/-- A trailhead stored under key id 2, with no trails assigned. -/
def headFalls : Entity :=
  { kind := "Trailhead"
    keyId := 2
    attrs := [("name", .vstr "Falls"), ("location", .vstr "46.24,-117.69"), ("fee", .vnum 0)]
    userId := none
    relations := [("trails", [])] }

/-- A trailhead entity generator for the pagination fixtures. -/
def mkTrailhead (i : Nat) : Entity :=
  { kind := "Trailhead"
    keyId := i
    attrs := [("name", .vstr "T"), ("location", .vstr "L"), ("fee", .vnum 0)]
    userId := none
    relations := [("trails", [])] }

/-- A complete trail request body. -/
def fullTrailBody : List (String × Value) :=
  [("name", .vstr "Loop"), ("length", .vnum 3), ("difficulty", .vstr "easy")]

/-- C10: every User entity formatted for a response by
`makeUserFormatJSON` carries a self URL built from the trailheads URL
segment, that is `baseURL ++ "trailheads/" ++ id`, because the source
passes the `TRAILHEAD` descriptor to `makeSelfURL` there. -/
theorem user_self_url_uses_trailheads_segment (userEntity : Entity) :
    List.lookup "self" (makeUserFormatJSON userEntity) =
      some (.vstr (makeSelfURL (toString userEntity.keyId) TRAILHEAD)) ∧
    makeSelfURL (toString userEntity.keyId) TRAILHEAD =
      URL ++ "trailheads/" ++ toString userEntity.keyId := by
  constructor
  · simp [makeUserFormatJSON, List.lookup]
  · simp [makeSelfURL, TRAILHEAD, String.append_assoc]

/-- C8: with an Accept header that is neither `*/*` nor
`application/json`, every operation (get, list, create, replace, patch,
delete, assign, remove) returns the 406 accept-type error, whatever the
store, the body, the ids, the cursor, the token, and the identity
oracle hold — so before any attribute, authentication, ownership, or
existence check could run. -/
theorem accept_header_gate (authOracle : String → Option UserData) (ds : List Entity)
    (id newKeyId trailId trailheadId : Nat) (type : EntityType) (headers : Headers)
    (body : List (String × Value)) (cursor : Option Nat)
    (hacc : acceptTypeIsNotJSON headers = true) :
    getEntity authOracle ds id type headers = acceptTypeError ∧
    getEntitiesPagination authOracle ds type headers cursor = .err acceptTypeError ∧
    (postEntity authOracle ds newKeyId type headers body).1 = acceptTypeError ∧
    (putEntity authOracle ds id type headers body).1 = acceptTypeError ∧
    (patchEntity authOracle ds id type headers body).1 = acceptTypeError ∧
    (deleteEntity authOracle ds id type headers).1 = acceptTypeError ∧
    (assignTrailheadToTrail authOracle ds trailId trailheadId headers).1 = acceptTypeError ∧
    (removeTrailheadFromTrail authOracle ds trailId trailheadId headers).1 = acceptTypeError ∧
    acceptTypeError.code = 406 := by
  refine ⟨?_, ?_, ?_, ?_, ?_, ?_, ?_, ?_, rfl⟩ <;>
    simp [getEntity, getEntitiesPagination, postEntity, putEntity, patchEntity,
      deleteEntity, assignTrailheadToTrail, removeTrailheadFromTrail, hacc]

/-- Witness for C8: `Accept: text/plain` trips the gate, and a create
request with a valid body and token still receives the 406 result. -/
theorem accept_header_gate_witness :
    acceptTypeIsNotJSON hdrPlain = true ∧
    (postEntity authA [] 5 TRAIL hdrPlain fullTrailBody).1 = acceptTypeError := by
  refine ⟨by decide, ?_⟩
  exact (accept_header_gate authA [] 1 5 1 2 TRAIL hdrPlain fullTrailBody none
    (by decide)).2.2.1

/-- C9: for create (POST) and replace (PUT), a missing required
attribute yields the 400 MissingAttribute error whatever the
authorization header and the identity oracle hold — so even with an
absent or invalid bearer token — and the 401 Unauthenticated error can
only arise on a body in which every required attribute is present. -/
theorem missing_attribute_before_unauthenticated (authOracle : String → Option UserData)
    (ds : List Entity) (newKeyId id : Nat) (type : EntityType) (headers : Headers)
    (body : List (String × Value))
    (hacc : acceptTypeIsNotJSON headers = false)
    (hmiss : allAttrsPresent type body = false) :
    (postEntity authOracle ds newKeyId type headers body).1 = attributeMissingError ∧
    (putEntity authOracle ds id type headers body).1 = attributeMissingError ∧
    (∀ body2, (postEntity authOracle ds newKeyId type headers body2).1 =
        userNotAuthenticatedError → allAttrsPresent type body2 = true) ∧
    (∀ body2, (putEntity authOracle ds id type headers body2).1 =
        userNotAuthenticatedError → allAttrsPresent type body2 = true) := by
  refine ⟨by simp [postEntity, hacc, hmiss], by simp [putEntity, hacc, hmiss], ?_, ?_⟩
  · intro body2 h
    by_contra hq
    rw [Bool.not_eq_true] at hq
    have hpost : (postEntity authOracle ds newKeyId type headers body2).1 =
        attributeMissingError := by simp [postEntity, hacc, hq]
    rw [hpost] at h
    exact absurd h (by decide)
  · intro body2 h
    by_contra hq
    rw [Bool.not_eq_true] at hq
    have hput : (putEntity authOracle ds id type headers body2).1 =
        attributeMissingError := by simp [putEntity, hacc, hq]
    rw [hput] at h
    exact absurd h (by decide)

/-- Witness for C9: a trail body missing `length` and `difficulty`,
sent with a token the oracle rejects, still receives the 400 result. -/
theorem missing_attribute_before_unauthenticated_witness :
    allAttrsPresent TRAIL [("name", Value.vstr "Loop")] = false ∧
    (postEntity authA [] 5 TRAIL { accept := "*/*", authorization := some "badToken" }
      [("name", Value.vstr "Loop")]).1 = attributeMissingError := by
  refine ⟨by decide, ?_⟩
  exact (missing_attribute_before_unauthenticated authA [] 5 1 TRAIL
    { accept := "*/*", authorization := some "badToken" }
    [("name", Value.vstr "Loop")] (by decide) (by decide)).1

/-- C2: evaluating the code on a concrete store exhibits the patch
defect.  A valid owner patches trail 1's `name` from `Ridge` to
`NewName`: the handler answers 200 and echoes `NewName` in the response
data, yet the store it returns is unchanged — the stored entity still
carries `name = Ridge`, because `patchEntity` writes the merged
attributes only into the response object and then calls
`datastore.update` on the unmodified fetched entity. -/
theorem patch_success_leaves_store_unchanged :
    (patchEntity authA [trailRidge] 1 TRAIL hdrA
      [("name", Value.vstr "NewName")]).1.code = 200 ∧
    List.lookup "name" (patchEntity authA [trailRidge] 1 TRAIL hdrA
      [("name", Value.vstr "NewName")]).1.data = some (Value.vstr "NewName") ∧
    (patchEntity authA [trailRidge] 1 TRAIL hdrA
      [("name", Value.vstr "NewName")]).2 = [trailRidge] ∧
    List.lookup "name" trailRidge.attrs = some (Value.vstr "Ridge") := by
  refine ⟨by decide, by decide, by decide, by decide⟩

/-- C1: on the protected Trail resource, a request with a valid claim
whose id names no trail owned by the caller's subject — the id exists
under another owner, or not at all — receives Forbidden (403) from get,
patch, and delete; replace (PUT) also receives Forbidden when the body
is complete, and in every case its result is neither NotFound (404) nor
a 200 success. -/
theorem protected_trail_not_owned_forbidden (authOracle : String → Option UserData)
    (ds : List Entity) (id : Nat) (headers : Headers) (body : List (String × Value))
    (u : UserData)
    (hacc : acceptTypeIsNotJSON headers = false)
    (hu : verifyUser authOracle headers.authorization = some u)
    (hnotowned : ∀ e ∈ ds,
      ¬(e.kind = TRAIL.name ∧ e.keyId = id ∧ e.userId = some u.payload.sub)) :
    getEntity authOracle ds id TRAIL headers = forbiddenError ∧
    (patchEntity authOracle ds id TRAIL headers body).1 = forbiddenError ∧
    (deleteEntity authOracle ds id TRAIL headers).1 = forbiddenError ∧
    (allAttrsPresent TRAIL body = true →
      (putEntity authOracle ds id TRAIL headers body).1 = forbiddenError) ∧
    (putEntity authOracle ds id TRAIL headers body).1.code ≠ 404 ∧
    (putEntity authOracle ds id TRAIL headers body).1.code ≠ 200 := by
  have hlook : getEntityFromDatastore ds id TRAIL (some u.payload.sub) = none := by
    apply getFromDs_none_of
    rintro e he ⟨h1, h2, h3⟩
    refine hnotowned e he ⟨h1, h2, ?_⟩
    simpa [uidOk] using h3
  have hput : allAttrsPresent TRAIL body = true →
      (putEntity authOracle ds id TRAIL headers body).1 = forbiddenError := by
    intro hall
    simp [putEntity, hacc, hall, authGate, TRAIL_isProtected, hu, hlook]
  refine ⟨?_, ?_, ?_, hput, ?_, ?_⟩
  · simp [getEntity, hacc, TRAIL_isProtected, hu, hlook]
  · simp [patchEntity, hacc, authGate, TRAIL_isProtected, hu, hlook]
  · simp [deleteEntity, hacc, authGate, TRAIL_isProtected, hu, hlook]
  · by_cases hall : allAttrsPresent TRAIL body
    · rw [hput hall]; decide
    · rw [Bool.not_eq_true] at hall
      have : (putEntity authOracle ds id TRAIL headers body).1 =
          attributeMissingError := by simp [putEntity, hacc, hall]
      rw [this]; decide
  · by_cases hall : allAttrsPresent TRAIL body
    · rw [hput hall]; decide
    · rw [Bool.not_eq_true] at hall
      have : (putEntity authOracle ds id TRAIL headers body).1 =
          attributeMissingError := by simp [putEntity, hacc, hall]
      rw [this]; decide

/-- Witness for C1: trail 1 exists in the store but belongs to subject
A; subject B's valid token gets Forbidden from get on it. -/
theorem protected_trail_not_owned_forbidden_witness :
    verifyUser authA hdrB.authorization =
      some { payload := { sub := "subjectB" } } ∧
    getEntity authA [trailRidge] 1 TRAIL hdrB = forbiddenError := by
  refine ⟨by decide, ?_⟩
  exact (protected_trail_not_owned_forbidden authA [trailRidge] 1 hdrB fullTrailBody
    { payload := { sub := "subjectB" } } (by decide) (by decide) (by decide)).1

theorem contains_eq_false_of_not_mem {l : List Nat} {a : Nat} (h : a ∉ l) :
    l.contains a = false := by
  rw [← Bool.not_eq_true]
  exact fun hc => h (List.mem_of_elem_eq_true hc)

/-- The trail stored under key id 1 with the edge to trailhead 2
already recorded. -/
def trailLinked : Entity := { trailRidge with relations := [("trailheads", [2])] }

/-- The trailhead stored under key id 2 with the edge to trail 1
already recorded. -/
def headLinked : Entity := { headFalls with relations := [("trails", [1])] }

/-- C3: whenever `assignTrailheadToTrail` succeeds with 204 — on a
store where the authenticated caller's trail and the trailhead both
load — the returned store holds the edge in both directions: the
trail's `trailheads` array contains the trailhead's id and the
trailhead's `trails` array contains the trail's id. -/
theorem assign_success_bidirectional (authOracle : String → Option UserData)
    (ds : List Entity) (trailId trailheadId : Nat) (headers : Headers)
    (u : UserData) (tr th : Entity)
    (hacc : acceptTypeIsNotJSON headers = false)
    (hu : verifyUser authOracle headers.authorization = some u)
    (htr : getEntityFromDatastore ds trailId TRAIL (some u.payload.sub) = some tr)
    (hth : getEntityFromDatastore ds trailheadId TRAILHEAD none = some th)
    (hsucc :
      (assignTrailheadToTrail authOracle ds trailId trailheadId headers).1.code = 204) :
    ∃ tr2 th2,
      getEntityFromDatastore
        (assignTrailheadToTrail authOracle ds trailId trailheadId headers).2
        trailId TRAIL none = some tr2 ∧
      getEntityFromDatastore
        (assignTrailheadToTrail authOracle ds trailId trailheadId headers).2
        trailheadId TRAILHEAD none = some th2 ∧
      trailheadId ∈ getRel tr2 "trailheads" ∧
      trailId ∈ getRel th2 "trails" := by
  obtain ⟨htrmem, htrkind, htrkey, htruid⟩ := getFromDs_some htr
  obtain ⟨hthmem, hthkind, hthkey, _⟩ := getFromDs_some hth
  by_cases hc : th.keyId ∈ getRel tr "trailheads" ∧ tr.keyId ∈ getRel th "trails"
  · exfalso
    have hres :
        (assignTrailheadToTrail authOracle ds trailId trailheadId headers).1 =
          alreadyExistsError := by
      simp [assignTrailheadToTrail, hacc, hu, htr, hth, hc]
    rw [hres] at hsucc
    exact absurd hsucc (by decide)
  · have hds : (assignTrailheadToTrail authOracle ds trailId trailheadId headers).2 =
        dsUpdate
          (dsUpdate ds (setRel tr "trailheads" (getRel tr "trailheads" ++ [th.keyId])))
          (setRel th "trails" (getRel th "trails" ++ [tr.keyId])) := by
      simp [assignTrailheadToTrail, hacc, hu, htr, hth, hc]
    refine ⟨setRel tr "trailheads" (getRel tr "trailheads" ++ [th.keyId]),
            setRel th "trails" (getRel th "trails" ++ [tr.keyId]), ?_, ?_, ?_, ?_⟩
    · rw [hds]
      rw [getFromDs_dsUpdate_miss (by
        rw [setRel_entKey]
        simp [entKey, hthkind, TRAILHEAD_name, TRAIL_name])]
      exact getFromDs_dsUpdate_hit (entMatch_iff.mpr ⟨htrkind, htrkey, rfl⟩)
        ⟨tr, htrmem, (setRel_entKey tr _ _).symm⟩
    · rw [hds]
      refine getFromDs_dsUpdate_hit (entMatch_iff.mpr ⟨hthkind, hthkey, rfl⟩)
        ⟨th, mem_dsUpdate_of_ne hthmem ?_, (setRel_entKey th _ _).symm⟩
      rw [setRel_entKey]
      simp [entKey, hthkind, htrkind, TRAILHEAD_name, TRAIL_name]
    · rw [getRel_setRel_same, ← hthkey]
      exact List.mem_append_right _ (List.mem_singleton_self _)
    · rw [getRel_setRel_same, ← htrkey]
      exact List.mem_append_right _ (List.mem_singleton_self _)

/-- Witness for C3: assigning trailhead 2 to trail 1 on the two-entity
store succeeds, and the result store records the edge both ways. -/
theorem assign_success_bidirectional_witness :
    (assignTrailheadToTrail authA [trailRidge, headFalls] 1 2 hdrA).1.code = 204 ∧
    (∃ tr2 th2,
      getEntityFromDatastore
        (assignTrailheadToTrail authA [trailRidge, headFalls] 1 2 hdrA).2
        1 TRAIL none = some tr2 ∧
      getEntityFromDatastore
        (assignTrailheadToTrail authA [trailRidge, headFalls] 1 2 hdrA).2
        2 TRAILHEAD none = some th2 ∧
      2 ∈ getRel tr2 "trailheads" ∧
      1 ∈ getRel th2 "trails") := by
  refine ⟨by decide, ?_⟩
  exact assign_success_bidirectional authA [trailRidge, headFalls] 1 2 hdrA
    { payload := { sub := "subjectA" } } trailRidge headFalls
    (by decide) (by decide) (by decide) (by decide) (by decide)

/-- C4: when the trail's and the trailhead's relation arrays already
record the edge in both directions, `assignTrailheadToTrail` under a
valid owning claim returns the 403 AlreadyExists error and hands back
the store unchanged; consequently, whenever an assign succeeds with
204, repeating it with the same ids returns AlreadyExists. -/
theorem assign_duplicate_already_exists (authOracle : String → Option UserData)
    (ds : List Entity) (trailId trailheadId : Nat) (headers : Headers)
    (u : UserData) (tr th : Entity)
    (hacc : acceptTypeIsNotJSON headers = false)
    (hu : verifyUser authOracle headers.authorization = some u)
    (htr : getEntityFromDatastore ds trailId TRAIL (some u.payload.sub) = some tr)
    (hth : getEntityFromDatastore ds trailheadId TRAILHEAD none = some th) :
    (th.keyId ∈ getRel tr "trailheads" → tr.keyId ∈ getRel th "trails" →
      assignTrailheadToTrail authOracle ds trailId trailheadId headers =
        (alreadyExistsError, ds)) ∧
    ((assignTrailheadToTrail authOracle ds trailId trailheadId headers).1.code = 204 →
      (assignTrailheadToTrail authOracle
          (assignTrailheadToTrail authOracle ds trailId trailheadId headers).2
          trailId trailheadId headers).1 = alreadyExistsError) := by
  obtain ⟨htrmem, htrkind, htrkey, htruid⟩ := getFromDs_some htr
  obtain ⟨hthmem, hthkind, hthkey, _⟩ := getFromDs_some hth
  constructor
  · intro h1 h2
    simp [assignTrailheadToTrail, hacc, hu, htr, hth, h1, h2]
  · intro hsucc
    by_cases hc : th.keyId ∈ getRel tr "trailheads" ∧ tr.keyId ∈ getRel th "trails"
    · exfalso
      have hres :
          (assignTrailheadToTrail authOracle ds trailId trailheadId headers).1 =
            alreadyExistsError := by
        simp [assignTrailheadToTrail, hacc, hu, htr, hth, hc]
      rw [hres] at hsucc
      exact absurd hsucc (by decide)
    · have hds :
          (assignTrailheadToTrail authOracle ds trailId trailheadId headers).2 =
            dsUpdate
              (dsUpdate ds
                (setRel tr "trailheads" (getRel tr "trailheads" ++ [th.keyId])))
              (setRel th "trails" (getRel th "trails" ++ [tr.keyId])) := by
        simp [assignTrailheadToTrail, hacc, hu, htr, hth, hc]
      have hlook1 : getEntityFromDatastore
          (dsUpdate
            (dsUpdate ds
              (setRel tr "trailheads" (getRel tr "trailheads" ++ [th.keyId])))
            (setRel th "trails" (getRel th "trails" ++ [tr.keyId])))
          trailId TRAIL (some u.payload.sub) =
            some (setRel tr "trailheads" (getRel tr "trailheads" ++ [th.keyId])) := by
        rw [getFromDs_dsUpdate_miss (by
          rw [setRel_entKey]
          simp [entKey, hthkind, TRAILHEAD_name, TRAIL_name])]
        exact getFromDs_dsUpdate_hit (entMatch_iff.mpr ⟨htrkind, htrkey, htruid⟩)
          ⟨tr, htrmem, (setRel_entKey tr _ _).symm⟩
      have hlook2 : getEntityFromDatastore
          (dsUpdate
            (dsUpdate ds
              (setRel tr "trailheads" (getRel tr "trailheads" ++ [th.keyId])))
            (setRel th "trails" (getRel th "trails" ++ [tr.keyId])))
          trailheadId TRAILHEAD none =
            some (setRel th "trails" (getRel th "trails" ++ [tr.keyId])) := by
        refine getFromDs_dsUpdate_hit (entMatch_iff.mpr ⟨hthkind, hthkey, rfl⟩)
          ⟨th, mem_dsUpdate_of_ne hthmem ?_, (setRel_entKey th _ _).symm⟩
        rw [setRel_entKey]
        simp [entKey, hthkind, htrkind, TRAILHEAD_name, TRAIL_name]
      rw [hds]
      simp [assignTrailheadToTrail, hacc, hu, hlook1, hlook2, getRel_setRel_same,
        setRel_keyId, List.mem_append]

/-- Witness for C4: on a store where the edge between trail 1 and
trailhead 2 is already present in both arrays, assign returns
AlreadyExists and the unchanged store; and on the fresh store, a first
assign succeeding means the second returns AlreadyExists. -/
theorem assign_duplicate_already_exists_witness :
    assignTrailheadToTrail authA [trailLinked, headLinked] 1 2 hdrA =
      (alreadyExistsError, [trailLinked, headLinked]) ∧
    (assignTrailheadToTrail authA
        (assignTrailheadToTrail authA [trailRidge, headFalls] 1 2 hdrA).2
        1 2 hdrA).1 = alreadyExistsError := by
  constructor
  · exact (assign_duplicate_already_exists authA [trailLinked, headLinked] 1 2 hdrA
      { payload := { sub := "subjectA" } } trailLinked headLinked
      (by decide) (by decide) (by decide) (by decide)).1 (by decide) (by decide)
  · exact (assign_duplicate_already_exists authA [trailRidge, headFalls] 1 2 hdrA
      { payload := { sub := "subjectA" } } trailRidge headFalls
      (by decide) (by decide) (by decide) (by decide)).2 (by decide)

/-- C5: when the edge between the trail and the trailhead is recorded
in neither relation array, `removeTrailheadFromTrail` under a valid
owning claim returns the 403 RelationshipNotFound error with the store
unchanged; consequently, whenever a remove succeeds with 204, repeating
it with the same ids returns RelationshipNotFound rather than a silent
success. -/
theorem remove_missing_edge_not_found (authOracle : String → Option UserData)
    (ds : List Entity) (trailId trailheadId : Nat) (headers : Headers)
    (u : UserData) (tr th : Entity)
    (hacc : acceptTypeIsNotJSON headers = false)
    (hu : verifyUser authOracle headers.authorization = some u)
    (htr : getEntityFromDatastore ds trailId TRAIL (some u.payload.sub) = some tr)
    (hth : getEntityFromDatastore ds trailheadId TRAILHEAD none = some th) :
    (th.keyId ∉ getRel tr "trailheads" → tr.keyId ∉ getRel th "trails" →
      removeTrailheadFromTrail authOracle ds trailId trailheadId headers =
        (relationshipDoesNotExistError, ds)) ∧
    ((removeTrailheadFromTrail authOracle ds trailId trailheadId headers).1.code = 204 →
      (removeTrailheadFromTrail authOracle
          (removeTrailheadFromTrail authOracle ds trailId trailheadId headers).2
          trailId trailheadId headers).1 = relationshipDoesNotExistError) := by
  obtain ⟨htrmem, htrkind, htrkey, htruid⟩ := getFromDs_some htr
  obtain ⟨hthmem, hthkind, hthkey, _⟩ := getFromDs_some hth
  constructor
  · intro h1 h2
    simp [removeTrailheadFromTrail, hacc, hu, htr, hth, h1, h2]
  · intro hsucc
    by_cases hc : th.keyId ∉ getRel tr "trailheads" ∧ tr.keyId ∉ getRel th "trails"
    · exfalso
      have hres :
          (removeTrailheadFromTrail authOracle ds trailId trailheadId headers).1 =
            relationshipDoesNotExistError := by
        simp [removeTrailheadFromTrail, hacc, hu, htr, hth, hc.1, hc.2]
      rw [hres] at hsucc
      exact absurd hsucc (by decide)
    · have hds :
          (removeTrailheadFromTrail authOracle ds trailId trailheadId headers).2 =
            dsUpdate
              (dsUpdate ds
                (setRel tr "trailheads"
                  ((getRel tr "trailheads").filter fun v => v != trailheadId)))
              (setRel th "trails"
                ((getRel th "trails").filter fun v => v != trailId)) := by
        simp [removeTrailheadFromTrail, hacc, hu, htr, hth, hc]
      have hlook1 : getEntityFromDatastore
          (dsUpdate
            (dsUpdate ds
              (setRel tr "trailheads"
                ((getRel tr "trailheads").filter fun v => v != trailheadId)))
            (setRel th "trails" ((getRel th "trails").filter fun v => v != trailId)))
          trailId TRAIL (some u.payload.sub) =
            some (setRel tr "trailheads"
              ((getRel tr "trailheads").filter fun v => v != trailheadId)) := by
        rw [getFromDs_dsUpdate_miss (by
          rw [setRel_entKey]
          simp [entKey, hthkind, TRAILHEAD_name, TRAIL_name])]
        exact getFromDs_dsUpdate_hit (entMatch_iff.mpr ⟨htrkind, htrkey, htruid⟩)
          ⟨tr, htrmem, (setRel_entKey tr _ _).symm⟩
      have hlook2 : getEntityFromDatastore
          (dsUpdate
            (dsUpdate ds
              (setRel tr "trailheads"
                ((getRel tr "trailheads").filter fun v => v != trailheadId)))
            (setRel th "trails" ((getRel th "trails").filter fun v => v != trailId)))
          trailheadId TRAILHEAD none =
            some (setRel th "trails"
              ((getRel th "trails").filter fun v => v != trailId)) := by
        refine getFromDs_dsUpdate_hit (entMatch_iff.mpr ⟨hthkind, hthkey, rfl⟩)
          ⟨th, mem_dsUpdate_of_ne hthmem ?_, (setRel_entKey th _ _).symm⟩
        rw [setRel_entKey]
        simp [entKey, hthkind, htrkind, TRAILHEAD_name, TRAIL_name]
      have hnm1 : th.keyId ∉ (getRel tr "trailheads").filter fun v => v != trailheadId := by
        rw [hthkey]
        intro hmem
        have := (List.mem_filter.mp hmem).2
        simp at this
      have hnm2 : tr.keyId ∉ (getRel th "trails").filter fun v => v != trailId := by
        rw [htrkey]
        intro hmem
        have := (List.mem_filter.mp hmem).2
        simp at this
      rw [hds]
      simp [removeTrailheadFromTrail, hacc, hu, hlook1, hlook2, getRel_setRel_same,
        setRel_keyId, hnm1, hnm2]

/-- Witness for C5: removing the never-created edge between trail 1 and
trailhead 2 returns RelationshipNotFound with the store unchanged; on
the linked store, a first remove succeeding means the second returns
RelationshipNotFound. -/
theorem remove_missing_edge_not_found_witness :
    removeTrailheadFromTrail authA [trailRidge, headFalls] 1 2 hdrA =
      (relationshipDoesNotExistError, [trailRidge, headFalls]) ∧
    (removeTrailheadFromTrail authA
        (removeTrailheadFromTrail authA [trailLinked, headLinked] 1 2 hdrA).2
        1 2 hdrA).1 = relationshipDoesNotExistError := by
  constructor
  · exact (remove_missing_edge_not_found authA [trailRidge, headFalls] 1 2 hdrA
      { payload := { sub := "subjectA" } } trailRidge headFalls
      (by decide) (by decide) (by decide) (by decide)).1 (by decide) (by decide)
  · exact (remove_missing_edge_not_found authA [trailLinked, headLinked] 1 2 hdrA
      { payload := { sub := "subjectA" } } trailLinked headLinked
      (by decide) (by decide) (by decide) (by decide)).2 (by decide)

/-- The trail stored under key id 1 linked to trailheads 2 and 3. -/
def trailTwo : Entity := { trailRidge with relations := [("trailheads", [2, 3])] }

/-- A trailhead stored under key id 3 with the edge to trail 1 recorded. -/
def headThree : Entity := { mkTrailhead 3 with relations := [("trails", [1])] }

/-- C6: deleting a trail whose `trailheads` array lists two distinct
trailheads succeeds with 204, removes the trail from the store, and
removes the trail's id from both trailheads' `trails` arrays. -/
theorem delete_trail_cascades (authOracle : String → Option UserData)
    (ds : List Entity) (trailId h1 h2 : Nat) (headers : Headers)
    (u : UserData) (tr H1e H2e : Entity)
    (hacc : acceptTypeIsNotJSON headers = false)
    (hu : verifyUser authOracle headers.authorization = some u)
    (htr : getEntityFromDatastore ds trailId TRAIL (some u.payload.sub) = some tr)
    (hrel : getRel tr "trailheads" = [h1, h2])
    (hne : h1 ≠ h2)
    (hh1 : getEntityFromDatastore ds h1 TRAILHEAD none = some H1e)
    (hh2 : getEntityFromDatastore ds h2 TRAILHEAD none = some H2e) :
    (deleteEntity authOracle ds trailId TRAIL headers).1.code = 204 ∧
    getEntityFromDatastore (deleteEntity authOracle ds trailId TRAIL headers).2
      trailId TRAIL none = none ∧
    (∃ H1f, getEntityFromDatastore (deleteEntity authOracle ds trailId TRAIL headers).2
        h1 TRAILHEAD none = some H1f ∧ trailId ∉ getRel H1f "trails") ∧
    (∃ H2f, getEntityFromDatastore (deleteEntity authOracle ds trailId TRAIL headers).2
        h2 TRAILHEAD none = some H2f ∧ trailId ∉ getRel H2f "trails") := by
  obtain ⟨htrmem, htrkind, htrkey, htruid⟩ := getFromDs_some htr
  obtain ⟨hh1mem, hh1kind, hh1key, _⟩ := getFromDs_some hh1
  obtain ⟨hh2mem, hh2kind, hh2key, _⟩ := getFromDs_some hh2
  have hl2 : getEntityFromDatastore
      (dsUpdate ds (setRel H1e "trails" ((getRel H1e "trails").filter fun v => v != tr.keyId)))
      h2 TRAILHEAD none = some H2e := by
    rw [getFromDs_dsUpdate_miss (by
      rw [setRel_entKey]
      simp [entKey, hh1kind, hh1key, hne])]
    exact hh2
  have hcasc : removeRelationships ds tr TRAIL =
      dsUpdate
        (dsUpdate ds
          (setRel H1e "trails" ((getRel H1e "trails").filter fun v => v != tr.keyId)))
        (setRel H2e "trails" ((getRel H2e "trails").filter fun v => v != tr.keyId)) := by
    rw [removeRelationships, if_pos rfl, hrel]
    simp only [cascadeList, hh1, hl2]
  have hres : deleteEntity authOracle ds trailId TRAIL headers =
      ({ code := 204, data := [] },
        dsDelete
          (dsUpdate
            (dsUpdate ds
              (setRel H1e "trails" ((getRel H1e "trails").filter fun v => v != tr.keyId)))
            (setRel H2e "trails" ((getRel H2e "trails").filter fun v => v != tr.keyId)))
          (entKey tr)) := by
    simp [deleteEntity, hacc, authGate, TRAIL_isProtected, hu, htr, hcasc]
  have htrk : entKey tr = (TRAIL.name, trailId) := by
    simp [entKey, htrkind, htrkey]
  refine ⟨by rw [hres], ?_, ?_, ?_⟩
  · rw [hres]
    simp only
    rw [htrk]
    exact getFromDs_dsDelete_same
  · refine ⟨setRel H1e "trails" ((getRel H1e "trails").filter fun v => v != tr.keyId),
      ?_, ?_⟩
    · rw [hres]
      simp only
      rw [getFromDs_dsDelete_other (by
        rw [htrk]
        simp [TRAIL_name, TRAILHEAD_name])]
      rw [getFromDs_dsUpdate_miss (by
        rw [setRel_entKey]
        simp [entKey, hh2kind, hh2key]
        exact fun h => (hne h.symm).elim)]
      exact getFromDs_dsUpdate_hit (entMatch_iff.mpr ⟨hh1kind, hh1key, rfl⟩)
        ⟨H1e, hh1mem, (setRel_entKey H1e _ _).symm⟩
    · rw [getRel_setRel_same]
      intro hmem
      have := (List.mem_filter.mp hmem).2
      rw [htrkey] at this
      simp at this
  · refine ⟨setRel H2e "trails" ((getRel H2e "trails").filter fun v => v != tr.keyId),
      ?_, ?_⟩
    · rw [hres]
      simp only
      rw [getFromDs_dsDelete_other (by
        rw [htrk]
        simp [TRAIL_name, TRAILHEAD_name])]
      refine getFromDs_dsUpdate_hit (entMatch_iff.mpr ⟨hh2kind, hh2key, rfl⟩)
        ⟨H2e, mem_dsUpdate_of_ne hh2mem ?_, (setRel_entKey H2e _ _).symm⟩
      rw [setRel_entKey]
      simp [entKey, hh1kind, hh1key, hh2kind, hh2key]
      exact fun h => (hne h.symm).elim
    · rw [getRel_setRel_same]
      intro hmem
      have := (List.mem_filter.mp hmem).2
      rw [htrkey] at this
      simp at this

/-- Witness for C6: deleting trail 1, linked to trailheads 2 and 3, on
the concrete three-entity store. -/
theorem delete_trail_cascades_witness :
    getRel trailTwo "trailheads" = [2, 3] ∧
    ((deleteEntity authA [trailTwo, headLinked, headThree] 1 TRAIL hdrA).1.code = 204 ∧
    getEntityFromDatastore
      (deleteEntity authA [trailTwo, headLinked, headThree] 1 TRAIL hdrA).2
      1 TRAIL none = none ∧
    (∃ H1f, getEntityFromDatastore
        (deleteEntity authA [trailTwo, headLinked, headThree] 1 TRAIL hdrA).2
        2 TRAILHEAD none = some H1f ∧ 1 ∉ getRel H1f "trails") ∧
    (∃ H2f, getEntityFromDatastore
        (deleteEntity authA [trailTwo, headLinked, headThree] 1 TRAIL hdrA).2
        3 TRAILHEAD none = some H2f ∧ 1 ∉ getRel H2f "trails")) := by
  refine ⟨by decide, ?_⟩
  exact delete_trail_cascades authA [trailTwo, headLinked, headThree] 1 2 3 hdrA
    { payload := { sub := "subjectA" } } trailTwo headLinked headThree
    (by decide) (by decide) (by decide) (by decide) (by decide) (by decide) (by decide)

/-- Six stored trailheads, one more than the page size. -/
def sixTrailheads : List Entity :=
  [mkTrailhead 1, mkTrailhead 2, mkTrailhead 3, mkTrailhead 4, mkTrailhead 5,
   mkTrailhead 6]

/-- C7: on a list request that passes the Accept and authentication
gates and matches more than `RESULTS_PER_PAGE` entities, the first page
holds exactly `RESULTS_PER_PAGE` formatted items, the full count, and a
next URL carrying the page-size cursor; when at most twice the page
size match, the page fetched at that cursor holds the remaining
`N - RESULTS_PER_PAGE` items and no next URL. -/
theorem pagination_two_pages (authOracle : String → Option UserData)
    (ds : List Entity) (type : EntityType) (headers : Headers) (uid : Option String)
    (hacc : acceptTypeIsNotJSON headers = false)
    (hgate : authGate authOracle type headers = some uid)
    (htype : type = USER ∨ type = TRAIL ∨ type = TRAILHEAD)
    (hN : RESULTS_PER_PAGE < (matchingEntities ds type uid).length) :
    (∃ items1,
      getEntitiesPagination authOracle ds type headers none =
        .ok (matchingEntities ds type uid).length (makeSelfURL "" type) items1
          (some (makeNextPageURL type RESULTS_PER_PAGE)) ∧
      items1.length = RESULTS_PER_PAGE) ∧
    ((matchingEntities ds type uid).length ≤ 2 * RESULTS_PER_PAGE →
      ∃ items2,
        getEntitiesPagination authOracle ds type headers (some RESULTS_PER_PAGE) =
          .ok (matchingEntities ds type uid).length
            (makeNextPageURL type RESULTS_PER_PAGE) items2 none ∧
        items2.length = (matchingEntities ds type uid).length - RESULTS_PER_PAGE) := by
  have hlen1 : ((matchingEntities ds type uid).take RESULTS_PER_PAGE).length =
      RESULTS_PER_PAGE := by
    rw [List.length_take]
    omega
  constructor
  · refine ⟨makeResponseByType type ((matchingEntities ds type uid).take RESULTS_PER_PAGE),
      ?_, ?_⟩
    · simp only [getEntitiesPagination, hacc, Bool.false_eq_true, if_false, hgate,
        Option.getD_none, List.drop_zero]
      rw [hlen1]
      rw [if_pos (by omega : 0 + RESULTS_PER_PAGE < (matchingEntities ds type uid).length)]
      rw [Nat.zero_add]
    · rw [makeResponseByType_length _ htype, hlen1]
  · intro hN2
    have hlen2 : (((matchingEntities ds type uid).drop RESULTS_PER_PAGE).take
        RESULTS_PER_PAGE).length =
        (matchingEntities ds type uid).length - RESULTS_PER_PAGE := by
      rw [List.length_take, List.length_drop]
      omega
    refine ⟨makeResponseByType type
        (((matchingEntities ds type uid).drop RESULTS_PER_PAGE).take RESULTS_PER_PAGE),
      ?_, ?_⟩
    · simp only [getEntitiesPagination, hacc, Bool.false_eq_true, if_false, hgate,
        Option.getD_some]
      rw [hlen2]
      rw [if_neg (by omega :
        ¬(RESULTS_PER_PAGE + ((matchingEntities ds type uid).length - RESULTS_PER_PAGE) <
          (matchingEntities ds type uid).length))]
    · rw [makeResponseByType_length _ htype, hlen2]

/-- Witness for C7: six stored trailheads; the first page returns five
items with a next cursor, the second page returns the remaining one and
no next. -/
theorem pagination_two_pages_witness :
    RESULTS_PER_PAGE < (matchingEntities sixTrailheads TRAILHEAD none).length ∧
    (∃ items1,
      getEntitiesPagination authA sixTrailheads TRAILHEAD hdrA none =
        .ok (matchingEntities sixTrailheads TRAILHEAD none).length
          (makeSelfURL "" TRAILHEAD) items1
          (some (makeNextPageURL TRAILHEAD RESULTS_PER_PAGE)) ∧
      items1.length = RESULTS_PER_PAGE) ∧
    (∃ items2,
      getEntitiesPagination authA sixTrailheads TRAILHEAD hdrA
          (some RESULTS_PER_PAGE) =
        .ok (matchingEntities sixTrailheads TRAILHEAD none).length
          (makeNextPageURL TRAILHEAD RESULTS_PER_PAGE) items2 none ∧
      items2.length =
        (matchingEntities sixTrailheads TRAILHEAD none).length - RESULTS_PER_PAGE) := by
  have h := pagination_two_pages authA sixTrailheads TRAILHEAD hdrA none
    (by decide) (by decide) (Or.inr (Or.inr rfl)) (by decide)
  exact ⟨by decide, h.1, h.2 (by decide)⟩
